import Mathlib

/-!
Shallow embedding of the mcp_pob build pipeline: the decoder fallback,
the version gate, the five semantic extractors, the content cache with the
`parse_pob_code` handler, the defensive classifier, and the suggestion
aggregator's rescoring pass.  Each definition is translated from the
corresponding TypeScript source file.
-/

/-! ## JavaScript-semantics helpers -/

/-- Model of the JS value shape `undefined | T | T[]` produced by the XML
parsing layer for repeated child elements. -/
inductive JsArr (α : Type) where
  | missing
  | single (a : α)
  | arr (l : List α)
deriving DecidableEq

/-- The `needle.isPrefixOf` scanned along the haystack; helper for `strIncludes`. -/
def charsIncludes (ns : List Char) : List Char → Bool
  | [] => ns.isPrefixOf []
  | c :: t => ns.isPrefixOf (c :: t) || charsIncludes ns t

/-- Model of JS `hay.includes(needle)` for strings. -/
def strIncludes (hay needle : String) : Bool :=
  charsIncludes needle.toList hay.toList

/-- Model of JS `s.toLowerCase()` (ASCII case folding). -/
def jsToLower (s : String) : String :=
  String.mk (s.toList.map Char.toLower)

/-- Lexicographic comparison of character lists; helper for `jsStrLt`. -/
def charsLt : List Char → List Char → Bool
  | [], [] => false
  | [], _ :: _ => true
  | _ :: _, [] => false
  | a :: as, b :: bs => if a < b then true else if b < a then false else charsLt as bs

/-- Model of JS `a < b` on strings: lexicographic by code unit. -/
def jsStrLt (a b : String) : Bool :=
  charsLt a.toList b.toList

/-- Model of JS `a || d` where `a` is a possibly-undefined string
(`undefined` and `""` are falsy). -/
def jsOrS (a : Option String) (d : String) : String :=
  match a with
  | some s => if s = "" then d else s
  | none => d

/-- Model of JS `a || rest` chaining possibly-undefined strings where the
fallback itself may be `null`. -/
def jsOrO (a : Option String) (rest : Option String) : Option String :=
  match a with
  | some s => if s = "" then rest else some s
  | none => rest

/-- Digits-prefix value used by the `parseInt` model. -/
def digitsToNat (ds : List Char) : Nat :=
  ds.foldl (fun acc c => acc * 10 + (c.toNat - 48)) 0

/-- Longest leading run of decimal digits, `none` when there is none. -/
def digitsPrefixVal (cs : List Char) : Option Nat :=
  let ds := cs.takeWhile Char.isDigit
  if ds.isEmpty then none else some (digitsToNat ds)

/-- Model of JS `parseInt(s, 10)`: leading whitespace, optional sign, then
the longest digit prefix; `none` models `NaN`. -/
def jsParseInt (s : String) : Option Int :=
  let cs := s.toList.dropWhile Char.isWhitespace
  match cs with
  | '-' :: rest => (digitsPrefixVal rest).map (fun n => -(n : Int))
  | '+' :: rest => (digitsPrefixVal rest).map (fun n => (n : Int))
  | rest => (digitsPrefixVal rest).map (fun n => (n : Int))

/-- Model of JS `parseFloat(s)` restricted to decimal literals
`[ws][sign]digits[.digits][(e|E)[sign]digits]`, as an exact rational;
`none` models `NaN`. -/
def jsParseFloat (s : String) : Option ℚ :=
  let cs := s.toList.dropWhile Char.isWhitespace
  let (sgn, cs₁) : ℚ × List Char :=
    match cs with
    | '-' :: rest => (-1, rest)
    | '+' :: rest => (1, rest)
    | rest => (1, rest)
  let intDs := cs₁.takeWhile Char.isDigit
  let cs₂ := cs₁.dropWhile Char.isDigit
  let (fracDs, cs₃) : List Char × List Char :=
    match cs₂ with
    | '.' :: rest => (rest.takeWhile Char.isDigit, rest.dropWhile Char.isDigit)
    | _ => ([], cs₂)
  if intDs.isEmpty ∧ fracDs.isEmpty then
    none
  else
    let mantissa : ℚ :=
      (digitsToNat intDs : ℚ) + (digitsToNat fracDs : ℚ) / ((10 : ℚ) ^ fracDs.length)
    let expPart : Int :=
      match cs₃ with
      | 'e' :: rest | 'E' :: rest =>
        match rest with
        | '-' :: rest' =>
          match digitsPrefixVal rest' with
          | some n => -(n : Int)
          | none => 0
        | '+' :: rest' => ((digitsPrefixVal rest').getD 0 : Int)
        | rest' => ((digitsPrefixVal rest').getD 0 : Int)
      | _ => 0
    some (sgn * mantissa * (10 : ℚ) ^ expPart)

/-! ## Error model (`src/utils/error-handler.ts`) -/

/-- The `ErrorCode` enum from `error-handler.ts`. -/
inductive ErrorCode where
  | INVALID_BASE64
  | DECOMPRESSION_ERROR
  | INVALID_XML
  | UNSUPPORTED_VERSION
  | MISSING_REQUIRED_FIELD
  | PASSIVE_TREE_ERROR
deriving DecidableEq

/-- The `PoBParsingError` from `error-handler.ts`: a code, a message, and
optional details. -/
structure PoBError where
  code : ErrorCode
  message : String
  details : Option String
deriving DecidableEq

/-! ## Decompressor (`src/utils/decompressor.ts`)

The zlib `inflateSync` / `inflateRawSync` primitives are external native
code; the embedding takes them as function parameters returning either the
decompressed bytes or a thrown error message. -/

/-- The `decompressZlib` from `decompressor.ts`, with `inflateSync` passed as a
parameter.  Returns the decompressed bytes (UTF-8 decoding is external). -/
def decompressZlib (inflate : List Nat → Except String (List Nat))
    (compressed : List Nat) : Except PoBError (List Nat) :=
  if compressed.isEmpty then
    .error ⟨.DECOMPRESSION_ERROR, "Compressed buffer is empty", none⟩
  else
    match inflate compressed with
    | .error m =>
      .error ⟨.DECOMPRESSION_ERROR, "Failed to decompress zlib data", some m⟩
    | .ok out =>
      if out.isEmpty then
        .error ⟨.DECOMPRESSION_ERROR, "Decompressed buffer is empty", none⟩
      else .ok out

/-- The error built in the catch-all branch of `decompressWithFallback`:
note the details string carries only the zlib-side error's message. -/
def bothFailedError (zlibError : PoBError) : PoBError :=
  ⟨.DECOMPRESSION_ERROR, "Failed to decompress with both zlib and raw deflate",
    some ("zlib: " ++ zlibError.message)⟩

/-- The `decompressWithFallback` from `decompressor.ts`: standard zlib framing
first, then raw deflate; an empty raw result re-throws the zlib error into
the catch branch. -/
def decompressWithFallback (inflate inflateRaw : List Nat → Except String (List Nat))
    (compressed : List Nat) : Except PoBError (List Nat) :=
  match decompressZlib inflate compressed with
  | .ok s => .ok s
  | .error zlibError =>
    match inflateRaw compressed with
    | .ok out => if out.isEmpty then .error (bothFailedError zlibError) else .ok out
    | .error _ => .error (bothFailedError zlibError)

/-! ## Section models and version gate (`src/parsers/pob-xml-parser.ts`) -/

/-- The `MainSocket` sub-object read by `parseCharacter`. -/
structure MainSocket where
  «class» : Option String
  ascendancyName : Option String
  level : Option String
deriving DecidableEq

/-- The `<Build>` section as read by `parseCharacter`. -/
structure BuildSection where
  MainSocket : Option MainSocket
  «class» : Option String
  ascendancy : Option String
  level : Option String
  league : Option String
deriving DecidableEq

/-- A gem reference `skill.gem` read by `parseSkills`. -/
structure GemRef where
  name : Option String
  level : Option String
  quality : Option String
deriving DecidableEq

/-- A `<Gem>` entry inside `skill.gems`. -/
structure GemEntry where
  type : Option String
  name : Option String
  level : Option String
  quality : Option String
deriving DecidableEq

/-- The `skill.gems` holder object. -/
structure GemsHolder where
  Gem : JsArr GemEntry
deriving DecidableEq

/-- A `<Skill>` entry as read by `parseSkills`. -/
structure SkillEntry where
  gem : Option GemRef
  name : Option String
  level : Option String
  quality : Option String
  mainActive : Bool
  gems : Option GemsHolder
deriving DecidableEq

/-- The `<Skills>` section. -/
structure SkillsSection where
  Skill : JsArr SkillEntry
deriving DecidableEq

/-- Truthiness-relevant JS primitive for `corrupted`-style fields. -/
inductive CVal where
  | undef
  | bool (b : Bool)
  | str (s : String)
deriving DecidableEq

/-- JS `v === true || v === "true"`. -/
def cvalIsTrue : CVal → Bool
  | .bool true => true
  | .str "true" => true
  | _ => false

/-- A `<mod>` entry inside `item.mods`. -/
structure ModEntry where
  type : Option String
  corrupted : CVal
  str : Option String
  dollar : Option String
  value : Option String
deriving DecidableEq

/-- The `item.mods` holder object. -/
structure ModsHolder where
  mod : JsArr ModEntry
deriving DecidableEq

/-- The `item.influences` JS value: absent, a string, an array, or an
object mapping influence names to boolean-ish values. -/
inductive InflVal where
  | missing
  | str (s : String)
  | arr (l : List String)
  | obj (kvs : List (String × CVal))
deriving DecidableEq

/-- An `<Item>` entry as read by `parseGear` (`$` is the text content). -/
structure ItemEntry where
  dollar : Option String
  slot : Option String
  baseType : Option String
  itemClass : Option String
  mods : Option ModsHolder
  implicit : Option String
  corrupted : CVal
  influences : InflVal
deriving DecidableEq

/-- The `<Gear>` section. -/
structure GearSection where
  Item : JsArr ItemEntry
deriving DecidableEq

/-- A node id inside `spec.nodes.node`: a string, an object with text
content `$`, or some other JS value (skipped by the extractor). -/
inductive NodeRef where
  | str (s : String)
  | obj (dollar : Option String)
  | other
deriving DecidableEq

/-- The `nodes` holder of a `<Spec>`. -/
structure NodesHolder where
  node : JsArr NodeRef
deriving DecidableEq

/-- A `<Spec>` entry inside `Tree.Specs`. -/
structure SpecEntry where
  nodes : Option NodesHolder
deriving DecidableEq

/-- The `Specs` holder of the `<Tree>` section. -/
structure SpecsHolder where
  Spec : JsArr SpecEntry
deriving DecidableEq

/-- The `<Tree>` section. -/
structure TreeSection where
  Specs : Option SpecsHolder
  version : Option String
deriving DecidableEq

/-- The value of a stat entry's `value`/`$` field: a number (possibly NaN),
a string, or an object carrying `$.value`. -/
inductive StatVal where
  | num (q : Option ℚ)
  | str (s : String)
  | obj (dollarValue : Option String)
deriving DecidableEq

/-- A `<Stat>` entry (`dollar` is the `$` text content used as the name). -/
structure StatEntry where
  dollar : String
  value : Option StatVal
deriving DecidableEq

/-- The `<Stats>` section. -/
structure StatsSection where
  Stat : JsArr StatEntry
deriving DecidableEq

/-- The root `PathOfBuilding` object handed to the extractors
(`parsePoBXML`'s return value). -/
structure PobXML where
  version : Option String
  gameVersion : Option String
  Build : Option BuildSection
  Skills : Option SkillsSection
  Tree : Option TreeSection
  Gear : Option GearSection
  Stats : Option StatsSection
deriving DecidableEq

/-- Fixed minimum PoB version from `validatePoBVersion`. -/
def minVersion : String := "1.4.170"

/-- The `validatePoBVersion` from `pob-xml-parser.ts`: missing (or empty,
hence falsy) version fails, and a version lexicographically below the
minimum fails with a message naming the minimum. -/
def validatePoBVersion (pobXML : PobXML) : Except PoBError Unit :=
  match pobXML.version with
  | none => .error ⟨.UNSUPPORTED_VERSION, "PoB version not specified", none⟩
  | some v =>
    if v = "" then .error ⟨.UNSUPPORTED_VERSION, "PoB version not specified", none⟩
    else if jsStrLt v minVersion then
      .error ⟨.UNSUPPORTED_VERSION,
        "PoB version " ++ v ++ " is not supported (minimum: " ++ minVersion ++ ")", none⟩
    else .ok ()

/-! ## Domain model (`src/models/build.ts`, `gear.ts`, `passive-tree.ts`) -/

/-- The `Character` entity.  `level` is a JS number: `none` models `NaN`. -/
structure Character where
  «class» : String
  ascendancy : Option String
  level : Option Int
  league : Option String
deriving DecidableEq

/-- The `SupportGem` entity. -/
structure SupportGem where
  name : String
  gemLevel : Option Int
  quality : Option Int
deriving DecidableEq

/-- The `SkillSetup` entity. -/
structure SkillSetup where
  id : String
  skillName : String
  gemLevel : Option Int
  quality : Option Int
  supports : List SupportGem
  linkCount : Nat
  isMainSkill : Bool
deriving DecidableEq

/-- The `AffixType` from `gear.ts`. -/
inductive AffixType where
  | explicit
  | implicit
  | corruptedImplicit
deriving DecidableEq

/-- The `value` field of an `Affix`: `null`, `NaN`, or a number. -/
inductive AffixVal where
  | null
  | nan
  | num (n : Int)
deriving DecidableEq

/-- The `Affix` entity. -/
structure Affix where
  type : AffixType
  text : String
  value : AffixVal
  unparsed : Bool
deriving DecidableEq

/-- The `GearSlot` entity (the slot is the raw string from the document, since
`determineSlotType` passes `item.slot` through unchecked). -/
structure GearSlot where
  slot : String
  itemName : String
  baseType : String
  itemClass : String
  affixes : List Affix
  implicit : Option String
  corrupted : Bool
  influences : List String
deriving DecidableEq

/-- The `Keystone` entity. -/
structure Keystone where
  id : String
  name : String
  effect : String
deriving DecidableEq

/-- The `PassiveTree` entity (`notables` is populated by no code path). -/
structure PassiveTree where
  totalPoints : Nat
  nodes : List String
  keystones : List Keystone
  notables : List Keystone
  version : String
deriving DecidableEq

/-- Stat provenance tag. -/
inductive StatSource where
  | explicit
  | estimated
  | calculated
deriving DecidableEq

/-- The `Stat` entity; the value is a JS number (`none` models `NaN`). -/
structure Stat where
  name : String
  value : Option ℚ
  source : StatSource
deriving DecidableEq

/-- The `ParsedBuild` aggregate root; `parsedAt` is modelled as an abstract
timestamp. -/
structure ParsedBuild where
  buildId : String
  version : String
  gameVersion : String
  character : Character
  skills : List SkillSetup
  passives : PassiveTree
  gear : List GearSlot
  stats : List Stat
  parsedAt : Nat
deriving DecidableEq

/-! ## Character extractor (`src/parsers/character-parser.ts`) -/

/-- JS `Math.min(100, Math.max(1, level))`; both propagate `NaN`. -/
def clampLevel : Option Int → Option Int
  | none => none
  | some n => some (min 100 (max 1 n))

/-- The `parseCharacter` from `character-parser.ts`. -/
def parseCharacter (buildSection : Option BuildSection) : Character :=
  match buildSection with
  | none => { «class» := "Witch", ascendancy := none, level := some 1, league := none }
  | some bs =>
    let characterClass := jsOrS (bs.MainSocket.bind MainSocket.«class») (jsOrS bs.«class» "Witch")
    let ascendancy := jsOrO (bs.MainSocket.bind MainSocket.ascendancyName) (jsOrO bs.ascendancy none)
    let level := jsParseInt (jsOrS bs.level (jsOrS (bs.MainSocket.bind MainSocket.level) "1"))
    { «class» := characterClass
      ascendancy := ascendancy
      level := clampLevel level
      league := jsOrO bs.league none }

/-! ## Skills extractor (`src/parsers/skill-parser.ts`) -/

/-- The `parseSupportGems` from `skill-parser.ts`: only an array-valued
`skill.gems.Gem` contributes, filtered to entries typed `"Support"`. -/
def parseSupportGems (skill : SkillEntry) : List SupportGem :=
  match skill.gems with
  | none => []
  | some g =>
    match g.Gem with
    | .arr gems =>
      (gems.filter (fun gem => gem.type = some "Support")).map (fun gem =>
        { name := jsOrS gem.name "Unknown"
          gemLevel := jsParseInt (jsOrS gem.level "1")
          quality := jsParseInt (jsOrS gem.quality "0") })
    | _ => []

/-- The `calculateLinkCount` from `skill-parser.ts`: counts every entry of
`skill.gems.Gem` (not only supports), plus one. -/
def calculateLinkCount (skill : SkillEntry) : Nat :=
  (match skill.gems with
   | none => 0
   | some g =>
     match g.Gem with
     | .missing => 0
     | .single _ => 1
     | .arr gems => gems.length) + 1

/-- One `SkillSetup` built inside the `forEach` of `parseSkills`
(`index` is the 0-based iteration index). -/
def mkSkillSetup (index : Nat) (skill : SkillEntry) : SkillSetup :=
  { id := "skill-" ++ toString (index + 1)
    skillName := jsOrS (skill.gem.bind GemRef.name) (jsOrS skill.name "Unknown")
    gemLevel := jsParseInt (jsOrS (skill.gem.bind GemRef.level) (jsOrS skill.level "1"))
    quality := jsParseInt (jsOrS (skill.gem.bind GemRef.quality) (jsOrS skill.quality "0"))
    supports := parseSupportGems skill
    linkCount := calculateLinkCount skill
    isMainSkill := skill.mainActive }

/-- The `parseSkills` from `skill-parser.ts`: a missing section or a
non-array `Skill` field short-circuits to the empty list. -/
def parseSkills (skillsSection : Option SkillsSection) : List SkillSetup :=
  match skillsSection with
  | none => []
  | some sec =>
    match sec.Skill with
    | .arr skillArray =>
      (List.range skillArray.length).zip skillArray |>.map (fun p => mkSkillSetup p.1 p.2)
    | _ => []

/-! ## Gear extractor (`src/parsers/gear-parser.ts`) -/

/-- The `GEAR_SLOTS`: the fifteen fixed slot identifiers in order. -/
def GEAR_SLOTS : List String :=
  ["Weapon1", "Weapon2", "Helmet", "BodyArmour", "Gloves", "Boots", "Amulet",
   "Ring1", "Ring2", "Belt", "Flask1", "Flask2", "Flask3", "Flask4", "Flask5"]

/-- Characters matched by the regex class `[-\d]` of `parseAffixValue`. -/
def isNumChar (c : Char) : Bool := c = '-' || c.isDigit

/-- First maximal run matched by `/([-\d]+)/`. -/
def firstNumRun : List Char → Option (List Char)
  | [] => none
  | c :: t => if isNumChar c then some (c :: t.takeWhile isNumChar) else firstNumRun t

/-- The `parseAffixValue` from `gear-parser.ts`: `parseInt` applied to the
first `[-\d]+` match, `null` when there is no match. -/
def parseAffixValue (text : String) : AffixVal :=
  match firstNumRun text.toList with
  | none => .null
  | some run =>
    match jsParseInt (String.mk run) with
    | none => .nan
    | some n => .num n

/-- The `determineAffixType` from `gear-parser.ts`. -/
def determineAffixType (mod : ModEntry) : AffixType :=
  if mod.type = some "implicit" then .implicit
  else if cvalIsTrue mod.corrupted then .corruptedImplicit
  else .explicit

/-- The affix object pushed for one mod entry inside `parseAffixes`. -/
def mkAffix (mod : ModEntry) : Affix :=
  { type := determineAffixType mod
    text := jsOrS mod.str (jsOrS mod.dollar "")
    value := parseAffixValue (jsOrS mod.str (jsOrS mod.dollar ""))
    unparsed := mod.value.isNone }

/-- The `parseAffixes` from `gear-parser.ts`: here a single non-array `mod`
is wrapped into a one-element list. -/
def parseAffixes (item : ItemEntry) : List Affix :=
  match item.mods with
  | none => []
  | some m =>
    match m.mod with
    | .missing => []
    | .single md => [mkAffix md]
    | .arr mods => mods.map mkAffix

/-- The `parseInfluences` from `gear-parser.ts`. -/
def parseInfluences (item : ItemEntry) : List String :=
  match item.influences with
  | .missing => []
  | .str s => if s = "" then [] else [s]
  | .arr l => l
  | .obj kvs => kvs.filterMap (fun kv => if cvalIsTrue kv.2 then some kv.1 else none)

/-- The `determineSlotType` from `gear-parser.ts`: a truthy `item.slot` is
passed through unchecked; otherwise flask-named items default to
`"Flask1"` and everything else gets no slot. -/
def determineSlotType (item : ItemEntry) : Option String :=
  match item.slot with
  | some s => if s = "" then determineSlotTypeFallback item else some s
  | none => determineSlotTypeFallback item
where
  determineSlotTypeFallback (item : ItemEntry) : Option String :=
    match item.dollar with
    | none => none
    | some nm =>
      if nm = "" then none
      else if strIncludes (jsToLower nm) "flask" then some "Flask1" else none

/-- The `parseGearSlot` from `gear-parser.ts`. -/
def parseGearSlot (item : ItemEntry) : Option GearSlot :=
  match item.dollar with
  | none => none
  | some nm =>
    if nm = "" then none
    else
      match determineSlotType item with
      | none => none
      | some slotType =>
        some { slot := slotType
               itemName := nm
               baseType := jsOrS item.baseType ""
               itemClass := jsOrS item.itemClass ""
               affixes := parseAffixes item
               implicit := jsOrO item.implicit none
               corrupted := cvalIsTrue item.corrupted
               influences := parseInfluences item }

/-- The `createEmptySlot` from `gear-parser.ts`. -/
def createEmptySlot (slot : String) : GearSlot :=
  { slot := slot
    itemName := "Empty"
    baseType := ""
    itemClass := ""
    affixes := []
    implicit := none
    corrupted := false
    influences := [] }

/-- The raw item list `parseGear` iterates over (single items wrapped). -/
def itemsOfGear : Option GearSection → List ItemEntry
  | none => []
  | some sec =>
    match sec.Item with
    | .missing => []
    | .single it => [it]
    | .arr l => l

/-- The `filledSlots` mapping of `parseGear`: every fixed slot type takes
the first parsed item matching it, or an empty slot. -/
def fillSlots (gear : List GearSlot) : List GearSlot :=
  GEAR_SLOTS.map (fun slotType =>
    match gear.find? (fun g => g.slot == slotType) with
    | some g => g
    | none => createEmptySlot slotType)

/-- The `parseGear` from `gear-parser.ts`: parsed items are matched back
against the fixed slot list; unmatched slots become `createEmptySlot`. -/
def parseGear (gearSection : Option GearSection) : List GearSlot :=
  match gearSection with
  | none => GEAR_SLOTS.map createEmptySlot
  | some sec =>
    match sec.Item with
    | .missing => GEAR_SLOTS.map createEmptySlot
    | _ => fillSlots ((itemsOfGear gearSection).filterMap parseGearSlot)

/-! ## Passives extractor (`src/parsers/passive-parser.ts`)

The keystone lookup table is loaded from a JSON file on disk (external
I/O); the embedding takes the loaded `keystonesData` as a parameter. -/

/-- One record of the external `keystones.json` data file. -/
structure KeystoneData where
  id : String
  name : String
  effects : Option (List String)
deriving DecidableEq

/-- The `extractNodeIds` from `passive-parser.ts`. -/
def extractNodeIds (treeSection : TreeSection) : List String :=
  match treeSection.Specs with
  | none => []
  | some specsHolder =>
    let specs : List SpecEntry :=
      match specsHolder.Spec with
      | .missing => []
      | .single sp => [sp]
      | .arr l => l
    specs.flatMap (fun sp =>
      match sp.nodes with
      | none => []
      | some nh =>
        let nodeIds : List NodeRef :=
          match nh.node with
          | .missing => []
          | .single n => [n]
          | .arr l => l
        nodeIds.filterMap (fun nodeId =>
          match nodeId with
          | .str s => some s
          | .obj (some d) => if d = "" then none else some d
          | _ => none))

/-- The keystone record placed into the `Map` for one data row. -/
def keystoneOfData (k : KeystoneData) : Keystone :=
  { id := k.id
    name := k.name
    effect := jsOrS ((k.effects).map (fun es => String.intercalate "; " es)) "" }

/-- JS `Map` built from `keystonesData`: a later row with the same id
overwrites an earlier one, so lookup takes the last match. -/
def keystoneLookup (keystonesData : List KeystoneData) (nodeId : String) : Option Keystone :=
  (keystonesData.reverse.find? (fun k => k.id == nodeId)).map keystoneOfData

/-- The `identifySpecialNodes` from `passive-parser.ts` (keystone list only;
notables are never produced). -/
def identifySpecialNodes (keystonesData : List KeystoneData) (nodeIds : List String) :
    List Keystone :=
  nodeIds.filterMap (keystoneLookup keystonesData)

/-- The `parsePassives` from `passive-parser.ts`. -/
def parsePassives (keystonesData : List KeystoneData) (treeSection : Option TreeSection) :
    PassiveTree :=
  match treeSection with
  | none =>
    { totalPoints := 0, nodes := [], keystones := [], notables := [], version := "unknown" }
  | some ts =>
    let nodes := extractNodeIds ts
    { totalPoints := nodes.length
      nodes := nodes
      keystones := identifySpecialNodes keystonesData nodes
      notables := []
      version := jsOrS ts.version "unknown" }

/-! ## Stats extractor (`src/parsers/stats-parser.ts`) -/

/-- JS truthiness of a stat entry's `value` field. -/
def statValTruthy : StatVal → Bool
  | .num (some q) => q ≠ 0
  | .num none => false
  | .str s => s ≠ ""
  | .obj _ => true

/-- The `parseStatValue` from `stats-parser.ts`. -/
def parseStatValue : StatVal → Option ℚ
  | .num q => q
  | .str s =>
    match jsParseFloat s with
    | some q => some q
    | none => some 0
  | .obj d =>
    match d with
    | some dv => jsParseFloat dv
    | none => some 0

/-- The `getDefaultStats` from `stats-parser.ts`. -/
def getDefaultStats : List Stat :=
  [{ name := "Life", value := some 0, source := .estimated },
   { name := "Energy Shield", value := some 0, source := .estimated },
   { name := "Fire Resistance", value := some 0, source := .estimated },
   { name := "Cold Resistance", value := some 0, source := .estimated },
   { name := "Lightning Resistance", value := some 0, source := .estimated },
   { name := "Chaos Resistance", value := some 0, source := .estimated }]

/-- The `parseStats` from `stats-parser.ts`. -/
def parseStats (statsSection : Option StatsSection) : List Stat :=
  match statsSection with
  | none => getDefaultStats
  | some sec =>
    match sec.Stat with
    | .missing => getDefaultStats
    | .single st => [mkStat st]
    | .arr l => l.map mkStat
where
  /-- One mapped stat: `stat.value || stat.$` feeds `parseStatValue`. -/
  mkStat (st : StatEntry) : Stat :=
    let chosen : StatVal :=
      match st.value with
      | some v => if statValTruthy v then v else .str st.dollar
      | none => .str st.dollar
    { name := st.dollar, value := parseStatValue chosen, source := .explicit }

/-! ## Content cache (`src/cache/build-cache.ts`)

The `lru-cache` instance is modelled as a most-recently-used-first list of
`(key, build, start)` entries with the configured defaults `max = 100`,
`ttl = 3600000`, and `updateAgeOnGet = true`.  The SHA-256 key derivation
is external native code and is passed in as a function parameter. -/

/-- Default `CACHE_MAX_SIZE` (entries). -/
def CACHE_MAX_SIZE : Nat := 100

/-- Default `CACHE_TTL_MS` (milliseconds). -/
def CACHE_TTL_MS : Nat := 3600000

/-- Cache state: MRU-first list of `(key, build, start-timestamp)`. -/
abbrev CacheState : Type := List (String × ParsedBuild × Nat)

/-- The `cache.get(key)` at time `now`: a fresh hit is returned, refreshed
(`updateAgeOnGet`) and moved to the front; a stale entry is deleted. -/
def cacheGet (st : CacheState) (now : Nat) (key : String) :
    Option ParsedBuild × CacheState :=
  match List.find? (fun e => e.1 == key) st with
  | none => (none, st)
  | some e =>
    if now - e.2.2 < CACHE_TTL_MS then
      (some e.2.1, (key, e.2.1, now) :: List.filter (fun e' => !(e'.1 == key)) st)
    else
      (none, List.filter (fun e' => !(e'.1 == key)) st)

/-- The `cache.set(key, build)` at time `now`: insert at the front, drop any
previous entry for the key, evict beyond `CACHE_MAX_SIZE`. -/
def cacheSet (st : CacheState) (now : Nat) (key : String) (build : ParsedBuild) :
    CacheState :=
  ((key, build, now) :: List.filter (fun e => !(e.1 == key)) st).take CACHE_MAX_SIZE

/-! ## `parse_pob_code` handler (`src/tools/parse_pob_code.ts`)

Base64 decoding, zlib and XML parsing happen inside `parsePoBXML`; that
composite (external decoding plus `fast-xml-parser`) is passed in as the
`parseXML` parameter, as is the SHA-256 `hash` used for cache keys. -/

/-- Result of one handler invocation: the returned value, the cache state
afterwards, and whether the decode/parse/extract pipeline ran. -/
structure HandlerOut where
  result : Except PoBError ParsedBuild
  state : CacheState
  ranPipeline : Bool

/-- The `handler` from `parse_pob_code.ts`: cache lookup first; on a miss the
pipeline runs, the build is assembled with `buildId := ""`, cached, and
returned. -/
def handler (hash : String → String) (parseXML : String → Except PoBError PobXML)
    (keystonesData : List KeystoneData) (now : Nat) (st : CacheState)
    (buildCode : String) : HandlerOut :=
  let key := hash buildCode
  match cacheGet st now key with
  | (some cached, st₁) => { result := .ok cached, state := st₁, ranPipeline := false }
  | (none, st₁) =>
    match parseXML buildCode with
    | .error e => { result := .error e, state := st₁, ranPipeline := true }
    | .ok pobXML =>
      match validatePoBVersion pobXML with
      | .error e => { result := .error e, state := st₁, ranPipeline := true }
      | .ok _ =>
        let build : ParsedBuild :=
          { buildId := ""
            version := (pobXML.version).getD ""
            gameVersion := jsOrS pobXML.gameVersion "3.25.0"
            character := parseCharacter pobXML.Build
            skills := parseSkills pobXML.Skills
            passives := parsePassives keystonesData pobXML.Tree
            gear := parseGear pobXML.Gear
            stats := parseStats pobXML.Stats
            parsedAt := now }
        { result := .ok build, state := cacheSet st₁ now key build, ranPipeline := true }

/-! ## Defensive classifier (`src/analyzers/playstyle-detector.ts`) -/

/-- The `DefensiveRating` from `analysis.ts`. -/
inductive DefensiveRating where
  | glass_cannon
  | moderate
  | tanky
  | uber_viable
deriving DecidableEq

/-- The stat bundle returned by `extractDefensiveStats`. -/
structure DefStats where
  life : Int
  energyShield : Int
  fireResist : Int
  coldResist : Int
  lightningResist : Int
  chaosResist : Int
  armor : Int
  evasion : Int
deriving DecidableEq

/-- The `getMinElementalResist` from `playstyle-detector.ts`. -/
def getMinElementalResist (stats : DefStats) : Int :=
  min stats.fireResist (min stats.coldResist stats.lightningResist)

/-- The `isResistCapped` from `playstyle-detector.ts`. -/
def isResistCapped (stats : DefStats) : Bool :=
  stats.fireResist ≥ 75 && stats.coldResist ≥ 75 && stats.lightningResist ≥ 75

/-- The `classifyDefense` from `playstyle-detector.ts`. -/
def classifyDefense (stats : DefStats) (hasChaosInoculation : Bool) : DefensiveRating :=
  let minResist := getMinElementalResist stats
  let effectiveLife := if hasChaosInoculation then stats.energyShield
                       else max stats.life stats.energyShield
  if effectiveLife > 5000 ∧ isResistCapped stats = true ∧
      (stats.armor > 10000 ∨ stats.evasion > 10000) then
    .uber_viable
  else if effectiveLife > 4000 ∧ isResistCapped stats = true then
    .tanky
  else if effectiveLife > 2500 ∧ minResist ≥ 50 then
    .moderate
  else
    .glass_cannon

/-! ## Suggestion rescoring (`src/tools/suggest_improvements.ts` source,
`scoreSuggestionPriority`) -/

/-- The `SuggestionCategory` from `analysis.ts`. -/
inductive SuggestionCategory where
  | gems
  | passives
  | gear
  | utility
deriving DecidableEq

/-- The `SuggestionPriority` from `analysis.ts`. -/
inductive SuggestionPriority where
  | critical
  | important
  | optional
deriving DecidableEq

/-- The `OffensiveRating` from `analysis.ts`. -/
inductive OffensiveRating where
  | low
  | moderate
  | high
  | extreme
deriving DecidableEq

/-- The `PlaystyleType` from `analysis.ts`. -/
inductive PlaystyleType where
  | clear
  | boss
  | hybrid
  | unknown
deriving DecidableEq

/-- The `Suggestion` entity. -/
structure Suggestion where
  category : SuggestionCategory
  priority : SuggestionPriority
  description : String
  specificAction : String
  expectedImpact : String
deriving DecidableEq

/-- The `BuildAnalysis` entity. -/
structure BuildAnalysis where
  strengths : List String
  weaknesses : List String
  playstyleType : PlaystyleType
  defensiveRating : DefensiveRating
  offensiveRating : OffensiveRating
  analyzedAt : String
deriving DecidableEq

/-- The fixed `criticalWeaknesses` phrase list. -/
def criticalWeaknesses : List String :=
  ["uncapped", "low life", "no chaos", "low energy shield", "vulnerable", "empty"]

/-- The `addressesCriticalWeakness` test of `scoreSuggestionPriority`:
it scans the analysis's weakness strings, not the suggestion. -/
def addressesCriticalWeakness (analysis : BuildAnalysis) : Bool :=
  criticalWeaknesses.any (fun indicator =>
    analysis.weaknesses.any (fun w => strIncludes (jsToLower w) indicator))

/-- The `scoreSuggestionPriority` from the suggest-improvements tool source. -/
def scoreSuggestionPriority (suggestion : Suggestion) (analysis : BuildAnalysis) :
    Suggestion :=
  let p₁ :=
    if addressesCriticalWeakness analysis ∧ suggestion.priority ≠ .critical then
      SuggestionPriority.critical
    else suggestion.priority
  if p₁ ≠ .critical then
    let p₂ :=
      if (analysis.defensiveRating = .uber_viable ∨ analysis.defensiveRating = .tanky) ∧
          (suggestion.category = .passives ∨ suggestion.category = .gear) ∧
          p₁ = .important then
        SuggestionPriority.optional
      else p₁
    let p₃ :=
      if analysis.offensiveRating = .extreme ∧ suggestion.category = .gems ∧
          p₂ = .important then
        SuggestionPriority.optional
      else p₂
    { suggestion with priority := p₃ }
  else
    { suggestion with priority := p₁ }

/-- The property asserted by the rescore claim about a suggestion's own
description (stated for comparison against the code's actual test). -/
def descIntersectsCritical (suggestion : Suggestion) : Bool :=
  criticalWeaknesses.any (fun indicator =>
    strIncludes (jsToLower suggestion.description) indicator)

/-! ## Concrete inputs used in counterexamples and witnesses -/

/-- A gear suggestion whose description contains the phrase "uncapped". -/
def c1Suggestion : Suggestion :=
  { category := .gear, priority := .optional,
    description := "Fix uncapped resistances",
    specificAction := "Add resistance affixes", expectedImpact := "Safer mapping" }

/-- An analysis with no detected weaknesses. -/
def c1Analysis : BuildAnalysis :=
  { strengths := [], weaknesses := [], playstyleType := .unknown,
    defensiveRating := .glass_cannon, offensiveRating := .low, analyzedAt := "" }

/-- A suggestion whose description mentions no critical phrase. -/
def c1Suggestion2 : Suggestion :=
  { category := .gems, priority := .optional,
    description := "Raise gem quality",
    specificAction := "Buy 20 percent quality gems", expectedImpact := "More damage" }

/-- An analysis whose weakness list contains the phrase "uncapped". -/
def c1Analysis2 : BuildAnalysis :=
  { strengths := [], weaknesses := ["Uncapped cold resistance"], playstyleType := .unknown,
    defensiveRating := .glass_cannon, offensiveRating := .low, analyzedAt := "" }

/-- Standard-framing decompression that fails with a zlib library message. -/
def c6Inflate : List Nat → Except String (List Nat) :=
  fun _ => .error "incorrect header check"

/-- Raw-framing decompression that fails with its own library message. -/
def c6InflateRaw : List Nat → Except String (List Nat) :=
  fun _ => .error "invalid stored block lengths"

/-- A root object with no version attribute. -/
def c7NoVersion : PobXML :=
  { version := none, gameVersion := none, Build := none, Skills := none,
    Tree := none, Gear := none, Stats := none }

/-- A root object declaring version 1.4.100, below the minimum. -/
def c7OldVersion : PobXML :=
  { version := some "1.4.100", gameVersion := none, Build := none, Skills := none,
    Tree := none, Gear := none, Stats := none }

/-- A skill whose gem list holds one active gem and one support gem. -/
def c3Skill : SkillEntry :=
  { gem := none, name := some "Fireball", level := some "20", quality := some "0",
    mainActive := true,
    gems := some ⟨.arr
      [{ type := some "Active", name := some "Fireball", level := some "20", quality := some "0" },
       { type := some "Support", name := some "Spell Echo", level := some "20", quality := some "0" }]⟩ }

/-- A lone skill entry, as the XML layer represents a single `<Skill>`. -/
def c8Skill : SkillEntry :=
  { gem := none, name := some "Arc", level := some "20", quality := some "0",
    mainActive := true, gems := none }

/-- A build section with a non-numeric level attribute. -/
def c9Build : BuildSection :=
  { MainSocket := none, «class» := none, ascendancy := none,
    level := some "abc", league := none }

/-- A build section with an over-range numeric level attribute. -/
def c9Build200 : BuildSection :=
  { MainSocket := none, «class» := none, ascendancy := none,
    level := some "200", league := none }

/-- A trivial stand-in for the external SHA-256 cache-key derivation. -/
def idHash : String → String := fun s => s

/-- A root object that validates successfully with everything absent. -/
def cWellFormedXML : PobXML :=
  { version := some "1.4.170", gameVersion := none, Build := none, Skills := none,
    Tree := none, Gear := none, Stats := none }

/-- An external decode-and-parse stage always producing `cWellFormedXML`. -/
def cParseXML : String → Except PoBError PobXML := fun _ => .ok cWellFormedXML

/-- The build the handler assembles from `cWellFormedXML` at time 0. -/
def cBuild : ParsedBuild :=
  { buildId := ""
    version := "1.4.170"
    gameVersion := "3.25.0"
    character := parseCharacter none
    skills := parseSkills none
    passives := parsePassives [] none
    gear := parseGear none
    stats := parseStats none
    parsedAt := 0 }

/-! ## Helper lemmas -/

theorem slot_of_createEmptySlot (s : String) : (createEmptySlot s).slot = s := rfl

theorem scoreSuggestionPriority_priority (s : Suggestion) (a : BuildAnalysis) :
    (scoreSuggestionPriority s a).priority = .critical ↔
      (addressesCriticalWeakness a = true ∨ s.priority = .critical) := by
  unfold scoreSuggestionPriority
  by_cases h : addressesCriticalWeakness a = true
  all_goals cases hp : s.priority
  all_goals simp [h, hp]
  all_goals split_ifs
  all_goals simp

/-! ## Claim theorems -/

/-- C1 (counterexample): a suggestion whose own description contains the
critical phrase "uncapped" is NOT rewritten to critical when the
analysis's weakness list matches no critical phrase, refuting the claim
that the rescore keys on the suggestion's description. -/
theorem rescore_counterexample :
    descIntersectsCritical c1Suggestion = true ∧
    (scoreSuggestionPriority c1Suggestion c1Analysis).priority = .optional ∧
    descIntersectsCritical c1Suggestion2 = false ∧
    (scoreSuggestionPriority c1Suggestion2 c1Analysis2).priority = .critical := by
  decide

/-- C1 (amended): the rescore pass rewrites a suggestion's priority to
critical exactly when some weakness string of the analysis, lowercased,
contains one of the fixed critical-weakness phrases (or the suggestion was
already critical); the suggestion's own description is never consulted —
the rescored priority depends only on the input priority and category. -/
theorem rescore_keys_on_analysis_weaknesses :
    ∀ (s₁ s₂ : Suggestion) (a : BuildAnalysis),
      ((scoreSuggestionPriority s₁ a).priority = .critical ↔
        (addressesCriticalWeakness a = true ∨ s₁.priority = .critical)) ∧
      (s₁.priority = s₂.priority → s₁.category = s₂.category →
        (scoreSuggestionPriority s₁ a).priority = (scoreSuggestionPriority s₂ a).priority) := by
  intro s₁ s₂ a
  refine ⟨scoreSuggestionPriority_priority s₁ a, fun hp hc => ?_⟩
  cases s₁
  cases s₂
  cases hp
  cases hc
  simp only [scoreSuggestionPriority, apply_ite (Suggestion.priority)]

/-- Witness for the C1 amended theorem at concrete inputs. -/
theorem rescore_keys_witness :
    ((scoreSuggestionPriority c1Suggestion2 c1Analysis2).priority = .critical ↔
      (addressesCriticalWeakness c1Analysis2 = true ∨ c1Suggestion2.priority = .critical)) ∧
    (scoreSuggestionPriority c1Suggestion2 c1Analysis2).priority =
      (scoreSuggestionPriority
        { category := .gems, priority := .optional, description := "Different text",
          specificAction := "", expectedImpact := "" } c1Analysis2).priority := by
  have h := rescore_keys_on_analysis_weaknesses c1Suggestion2
    { category := .gems, priority := .optional, description := "Different text",
      specificAction := "", expectedImpact := "" } c1Analysis2
  exact ⟨h.1, h.2 rfl rfl⟩

/-- C3 (code evaluation at the failing input): for a skill carrying one
active gem and one support gem, the extractor reports one support but a
link count of 3, violating `linkCount = supports.length + 1`: the code
counts every gem entry (active gems included) plus one. -/
theorem linkCount_counts_all_gems :
    (parseSkills (some ⟨.arr [c3Skill]⟩)).map
      (fun s => (s.linkCount, s.supports.length)) = [(3, 1)] ∧
    3 ≠ 1 + 1 := by
  constructor
  · decide
  · decide

/-- C8 (code evaluation at the failing input): a skills section whose
`Skill` field is a single entry (how the XML layer represents exactly one
`<Skill>` element) yields no `SkillSetup` at all, while the same entry
wrapped in an array yields one with id `skill-1`. -/
theorem single_skill_dropped :
    parseSkills (some ⟨.single c8Skill⟩) = [] ∧
    (parseSkills (some ⟨.arr [c8Skill]⟩)).map SkillSetup.id = ["skill-1"] := by
  constructor
  · rfl
  · decide

/-- C9 (code evaluation at the failing input): a non-numeric level
attribute makes `parseInt` return NaN, which `Math.min(100, Math.max(1, ·))`
propagates, so the level field is NaN (not an integer in [1,100]); a
numeric over-range level is clamped as claimed. -/
theorem level_nan_escapes_clamp :
    (parseCharacter (some c9Build)).level = none ∧
    (parseCharacter (some c9Build200)).level = some 100 := by
  constructor
  · decide
  · decide

/-- C6 (counterexample): when both framings fail, the produced error's
details string is `"zlib: Failed to decompress zlib data"`; it carries
neither the raw-framing failure message nor even the standard framing's
underlying library message, refuting the claim that both underlying error
messages are carried. -/
theorem decompress_details_counterexample :
    decompressWithFallback c6Inflate c6InflateRaw [1, 2, 3] =
      .error ⟨.DECOMPRESSION_ERROR, "Failed to decompress with both zlib and raw deflate",
        some "zlib: Failed to decompress zlib data"⟩ ∧
    strIncludes "zlib: Failed to decompress zlib data" "invalid stored block lengths" = false ∧
    strIncludes "zlib: Failed to decompress zlib data" "incorrect header check" = false := by
  refine ⟨rfl, ?_, ?_⟩
  · decide
  · decide

/-- C6 (amended): when the standard zlib framing fails and the raw-deflate
fallback also fails (or decompresses to nothing), the decoder fails with a
`DECOMPRESSION_ERROR` whose message names both attempted framings and
whose details carry only the standard-framing failure's wrapper message,
prefixed `"zlib: "`; the raw-framing failure message is discarded. -/
theorem decompress_both_failed (inflate inflateRaw : List Nat → Except String (List Nat))
    (compressed : List Nat) (zlibError : PoBError) (rawMsg : String)
    (h₁ : decompressZlib inflate compressed = .error zlibError)
    (h₂ : inflateRaw compressed = .error rawMsg ∨ inflateRaw compressed = .ok []) :
    decompressWithFallback inflate inflateRaw compressed =
      .error ⟨.DECOMPRESSION_ERROR, "Failed to decompress with both zlib and raw deflate",
        some ("zlib: " ++ zlibError.message)⟩ := by
  unfold decompressWithFallback
  rw [h₁]
  rcases h₂ with h₂ | h₂ <;> rw [h₂] <;> rfl

/-- Witness for the C6 amended theorem at concrete inputs. -/
theorem decompress_both_failed_witness :
    decompressWithFallback c6Inflate c6InflateRaw [1, 2, 3] =
      .error ⟨.DECOMPRESSION_ERROR, "Failed to decompress with both zlib and raw deflate",
        some ("zlib: " ++ "Failed to decompress zlib data")⟩ :=
  decompress_both_failed c6Inflate c6InflateRaw [1, 2, 3]
    ⟨.DECOMPRESSION_ERROR, "Failed to decompress zlib data", some "incorrect header check"⟩
    "invalid stored block lengths" rfl (Or.inl rfl)

/-- C7: a root with no (or an empty, hence falsy) version attribute fails
with `UNSUPPORTED_VERSION`, and a declared version `"1.4.100"` sorting
lexicographically below the fixed minimum `"1.4.170"` fails with
`UNSUPPORTED_VERSION` with a message containing the minimum version. -/
theorem version_gate_correct :
    (∀ px : PobXML, px.version = none →
      ∃ e, validatePoBVersion px = .error e ∧ e.code = .UNSUPPORTED_VERSION) ∧
    (∀ px : PobXML, px.version = some "1.4.100" →
      ∃ e, validatePoBVersion px = .error e ∧ e.code = .UNSUPPORTED_VERSION ∧
        strIncludes e.message minVersion = true) := by
  constructor
  · intro px h
    refine ⟨⟨.UNSUPPORTED_VERSION, "PoB version not specified", none⟩, ?_, rfl⟩
    unfold validatePoBVersion
    rw [h]
  · intro px h
    refine ⟨⟨.UNSUPPORTED_VERSION,
      "PoB version " ++ "1.4.100" ++ " is not supported (minimum: " ++ minVersion ++ ")",
      none⟩, ?_, rfl, by decide⟩
    unfold validatePoBVersion
    rw [h]
    rfl

/-- Witness for the C7 theorem at concrete inputs. -/
theorem version_gate_witness :
    (∃ e, validatePoBVersion c7NoVersion = .error e ∧ e.code = .UNSUPPORTED_VERSION) ∧
    (∃ e, validatePoBVersion c7OldVersion = .error e ∧ e.code = .UNSUPPORTED_VERSION ∧
      strIncludes e.message minVersion = true) :=
  ⟨version_gate_correct.1 c7NoVersion rfl, version_gate_correct.2 c7OldVersion rfl⟩

/-- C5: the defensive classifier evaluates, in strict order, the
uber-viable, tanky, moderate and glass-cannon rules exactly as specified,
with effective life switching to energy shield alone under chaos
inoculation; the three boundary inputs classify as claimed. -/
theorem defense_classification_correct :
    (∀ (s : DefStats) (ci : Bool),
      classifyDefense s ci =
        (if (if ci then s.energyShield else max s.life s.energyShield) > 5000 ∧
            (s.fireResist ≥ 75 ∧ s.coldResist ≥ 75 ∧ s.lightningResist ≥ 75) ∧
            (s.armor > 10000 ∨ s.evasion > 10000) then .uber_viable
         else if (if ci then s.energyShield else max s.life s.energyShield) > 4000 ∧
            (s.fireResist ≥ 75 ∧ s.coldResist ≥ 75 ∧ s.lightningResist ≥ 75) then .tanky
         else if (if ci then s.energyShield else max s.life s.energyShield) > 2500 ∧
            min s.fireResist (min s.coldResist s.lightningResist) ≥ 50 then .moderate
         else .glass_cannon)) ∧
    classifyDefense ⟨5001, 0, 75, 75, 75, 0, 10001, 0⟩ false = .uber_viable ∧
    classifyDefense ⟨4001, 0, 75, 75, 75, 0, 0, 0⟩ false = .tanky ∧
    classifyDefense ⟨2501, 0, 50, 50, 50, 0, 0, 0⟩ false = .moderate := by
  refine ⟨?_, by decide, by decide, by decide⟩
  intro s ci
  unfold classifyDefense isResistCapped getMinElementalResist
  simp only [Bool.and_eq_true, decide_eq_true_eq, and_assoc]

/-- Every filled slot carries exactly its requested slot type. -/
theorem fillSlots_slot (gear : List GearSlot) (slotType : String) :
    (match gear.find? (fun (g : GearSlot) => g.slot == slotType) with
     | some g => g
     | none => createEmptySlot slotType).slot = slotType := by
  cases h : gear.find? (fun (g : GearSlot) => g.slot == slotType) with
  | none => exact slot_of_createEmptySlot slotType
  | some g => simpa using List.find?_some h

/-- The slot projection of `fillSlots` is the fixed slot list itself. -/
theorem fillSlots_map_slot (gear : List GearSlot) :
    (fillSlots gear).map GearSlot.slot = GEAR_SLOTS := by
  unfold fillSlots
  rw [List.map_map]
  have : ∀ s ∈ GEAR_SLOTS,
      (GearSlot.slot ∘ fun slotType =>
        match gear.find? (fun g => g.slot == slotType) with
        | some g => g
        | none => createEmptySlot slotType) s = id s := by
    intro s _
    exact fillSlots_slot gear s
  rw [List.map_congr_left this, List.map_id]

/-- Every entry of `fillSlots` is an empty slot or one of the inputs. -/
theorem fillSlots_mem (gear : List GearSlot) (g : GearSlot) (hg : g ∈ fillSlots gear) :
    g = createEmptySlot g.slot ∨ g ∈ gear := by
  unfold fillSlots at hg
  rcases List.mem_map.mp hg with ⟨slotType, _, hEq⟩
  cases h : gear.find? (fun g' => g'.slot == slotType) with
  | none =>
    left
    rw [h] at hEq
    rw [← hEq]
    rfl
  | some g' =>
    right
    rw [h] at hEq
    rw [← hEq]
    exact List.mem_of_find?_eq_some h

/-- The `parseGear` always routes through `fillSlots` of the parsed items. -/
theorem parseGear_eq_fillSlots (gs : Option GearSection) :
    parseGear gs = fillSlots ((itemsOfGear gs).filterMap parseGearSlot) := by
  match gs with
  | none => rfl
  | some sec =>
    match h : sec.Item with
    | .missing => simp [parseGear, itemsOfGear, h, fillSlots]
    | .single _ => simp [parseGear, h]
    | .arr _ => simp [parseGear, h]

/-- C4: for any gear section (absent included) the extractor returns
exactly fifteen entries whose slot types are the fixed slot list in fixed
order (hence no duplicates), each entry being either a parsed real item or
the synthetic empty slot. -/
theorem gear_always_fifteen_slots :
    ∀ gs : Option GearSection,
      (parseGear gs).map GearSlot.slot = GEAR_SLOTS ∧
      (parseGear gs).length = 15 ∧
      GEAR_SLOTS.Nodup ∧
      ∀ g ∈ parseGear gs,
        g = createEmptySlot g.slot ∨
        ∃ it ∈ itemsOfGear gs, parseGearSlot it = some g := by
  intro gs
  rw [parseGear_eq_fillSlots gs]
  refine ⟨fillSlots_map_slot _, ?_, by decide, ?_⟩
  · have := congrArg List.length (fillSlots_map_slot ((itemsOfGear gs).filterMap parseGearSlot))
    simpa using this
  · intro g hg
    rcases fillSlots_mem _ g hg with h | h
    · exact Or.inl h
    · exact Or.inr (List.mem_filterMap.mp h)

/-- Witness for the C4 theorem at a concrete input and entry. -/
theorem gear_fifteen_witness :
    (parseGear none).map GearSlot.slot = GEAR_SLOTS ∧
    (createEmptySlot "Weapon1" = createEmptySlot (createEmptySlot "Weapon1").slot ∨
      ∃ it ∈ itemsOfGear none, parseGearSlot it = some (createEmptySlot "Weapon1")) :=
  ⟨(gear_always_fifteen_slots none).1,
   (gear_always_fifteen_slots none).2.2.2 (createEmptySlot "Weapon1") (by decide)⟩

/-- After a successful handler call, the cache state has the freshly
refreshed entry for this build code at its most-recent position. -/
theorem handler_ok_state_head (hash : String → String)
    (parseXML : String → Except PoBError PobXML) (ks : List KeystoneData)
    (t : Nat) (st : CacheState) (x : String) (b : ParsedBuild)
    (h : (handler hash parseXML ks t st x).result = .ok b) :
    ∃ rest, (handler hash parseXML ks t st x).state = (hash x, b, t) :: rest := by
  unfold handler cacheGet at h ⊢
  dsimp only [] at h ⊢
  obtain ⟨o, hfind⟩ : ∃ o, List.find? (fun e => e.1 == hash x) st = o := ⟨_, rfl⟩
  rw [hfind] at h ⊢
  obtain ⟨r, hr⟩ : ∃ r, parseXML x = r := ⟨_, rfl⟩
  rw [hr] at h ⊢
  cases o with
  | some e =>
    dsimp only [] at h ⊢
    by_cases hfresh : t - e.2.2 < CACHE_TTL_MS
    · rw [if_pos hfresh] at h ⊢
      dsimp only [] at h ⊢
      injection h with h
      subst h
      exact ⟨_, rfl⟩
    · rw [if_neg hfresh] at h ⊢
      dsimp only [] at h ⊢
      cases r with
      | error e' => exact absurd h (by simp)
      | ok px =>
        dsimp only [] at h ⊢
        obtain ⟨v, hv⟩ : ∃ v, validatePoBVersion px = v := ⟨_, rfl⟩
        rw [hv] at h ⊢
        cases v with
        | error e' => exact absurd h (by simp)
        | ok u =>
          dsimp only [] at h ⊢
          injection h with h
          subst h
          exact ⟨_, rfl⟩
  | none =>
    dsimp only [] at h ⊢
    cases r with
    | error e' => exact absurd h (by simp)
    | ok px =>
      dsimp only [] at h ⊢
      obtain ⟨v, hv⟩ : ∃ v, validatePoBVersion px = v := ⟨_, rfl⟩
      rw [hv] at h ⊢
      cases v with
      | error e' => exact absurd h (by simp)
      | ok u =>
        dsimp only [] at h ⊢
        injection h with h
        subst h
        exact ⟨_, rfl⟩

/-- C2: if a parse call succeeds, a second call with the same build code
against the resulting cache state, made before the TTL elapses, returns
the identical `ParsedBuild` and is served from the cache without running
the decode/parse/extract pipeline. -/
theorem parse_twice_served_from_cache (hash : String → String)
    (parseXML : String → Except PoBError PobXML) (ks : List KeystoneData)
    (t₁ t₂ : Nat) (st : CacheState) (x : String) (b : ParsedBuild)
    (h : (handler hash parseXML ks t₁ st x).result = .ok b)
    (httl : t₂ - t₁ < CACHE_TTL_MS) :
    (handler hash parseXML ks t₂ (handler hash parseXML ks t₁ st x).state x).result =
      .ok b ∧
    (handler hash parseXML ks t₂ (handler hash parseXML ks t₁ st x).state x).ranPipeline =
      false := by
  obtain ⟨rest, hstate⟩ := handler_ok_state_head hash parseXML ks t₁ st x b h
  rw [hstate]
  unfold handler cacheGet
  dsimp only []
  rw [List.find?_cons_of_pos _ (by simp)]
  dsimp only []
  rw [if_pos httl]
  exact ⟨rfl, rfl⟩

/-- Witness for the C2 theorem at concrete inputs. -/
theorem parse_twice_witness :
    (handler idHash cParseXML [] 1 (handler idHash cParseXML [] 0 [] "code").state
      "code").result = .ok cBuild ∧
    (handler idHash cParseXML [] 1 (handler idHash cParseXML [] 0 [] "code").state
      "code").ranPipeline = false :=
  parse_twice_served_from_cache idHash cParseXML [] 0 1 [] "code" cBuild rfl (by decide)

/-- All builds stored in a cache state have the empty build id. -/
def cacheBuildsEmptyId (st : CacheState) : Prop :=
  ∀ e ∈ st, (e.2.1 : ParsedBuild).buildId = ""

/-- Both components of a `cacheGet` are drawn from the previous state. -/
theorem cacheGet_preserves (st : CacheState) (now : Nat) (key : String)
    (hst : cacheBuildsEmptyId st) :
    (∀ b, (cacheGet st now key).1 = some b → b.buildId = "") ∧
    cacheBuildsEmptyId (cacheGet st now key).2 := by
  unfold cacheGet
  cases hf : List.find? (fun e => e.1 == key) st with
  | none => exact ⟨fun b hb => by simp at hb, hst⟩
  | some e =>
    have he : e ∈ st := List.mem_of_find?_eq_some hf
    dsimp only []
    by_cases hfresh : now - e.2.2 < CACHE_TTL_MS
    · rw [if_pos hfresh]
      refine ⟨fun b hb => ?_, fun e' he' => ?_⟩
      · dsimp only [] at hb
        cases hb
        exact hst e he
      · dsimp only [] at he'
        rcases List.mem_cons.mp he' with h' | h'
        · subst h'
          exact hst e he
        · exact hst e' (List.mem_of_mem_filter h')
    · rw [if_neg hfresh]
      exact ⟨fun b hb => by simp at hb, fun e' he' => hst e' (List.mem_of_mem_filter he')⟩

/-- The `cacheSet` preserves the empty-build-id invariant when the stored
build itself has an empty id. -/
theorem cacheSet_preserves (st : CacheState) (now : Nat) (key : String)
    (build : ParsedBuild) (hst : cacheBuildsEmptyId st) (hb : build.buildId = "") :
    cacheBuildsEmptyId (cacheSet st now key build) := by
  unfold cacheSet
  intro e he
  have he' := List.take_subset _ _ he
  rcases List.mem_cons.mp he' with h' | h'
  · subst h'
    exact hb
  · exact hst e (List.mem_of_mem_filter h')

/-- C10: the `buildId` field, documented as the SHA-256 hash of the build
code, is set to the empty string by the handler and never updated: every
successful parse result has `buildId = ""`, and a cache all of whose
entries came from the handler keeps that invariant. -/
theorem buildId_always_empty (hash : String → String)
    (parseXML : String → Except PoBError PobXML) (ks : List KeystoneData)
    (now : Nat) (st : CacheState) (x : String)
    (hst : cacheBuildsEmptyId st) :
    (∀ b, (handler hash parseXML ks now st x).result = .ok b → b.buildId = "") ∧
    cacheBuildsEmptyId (handler hash parseXML ks now st x).state := by
  have hget := cacheGet_preserves st now (hash x) hst
  unfold handler
  dsimp only []
  obtain ⟨o, st₁, hos⟩ : ∃ o st₁, cacheGet st now (hash x) = (o, st₁) :=
    ⟨_, _, rfl⟩
  rw [hos] at hget ⊢
  cases o with
  | some cached =>
    dsimp only []
    exact ⟨fun b hb => by cases hb; exact hget.1 cached rfl, hget.2⟩
  | none =>
    dsimp only []
    cases hr : parseXML x with
    | error e' => exact ⟨fun b hb => by simp at hb, hget.2⟩
    | ok px =>
      dsimp only []
      cases hv : validatePoBVersion px with
      | error e' => exact ⟨fun b hb => by simp at hb, hget.2⟩
      | ok u =>
        dsimp only []
        refine ⟨fun b hb => ?_, ?_⟩
        · injection hb with hb
          subst hb
          rfl
        · exact cacheSet_preserves st₁ now (hash x) _ hget.2 rfl

/-- Witness for the C10 theorem at concrete inputs. -/
theorem buildId_empty_witness :
    cBuild.buildId = "" ∧
    cacheBuildsEmptyId (handler idHash cParseXML [] 0 [] "code").state :=
  ⟨(buildId_always_empty idHash cParseXML [] 0 [] "code"
      (fun e he => absurd he (List.not_mem_nil e))).1 cBuild rfl,
   (buildId_always_empty idHash cParseXML [] 0 [] "code"
      (fun e he => absurd he (List.not_mem_nil e))).2⟩
